import Mathlib

/-!
Shallow embedding of `src/tensorizer/_NumpyTensor.py`.

The module bridges torch's dtype system (the TCF of the spec) and numpy's
dtype system (the ACL of the spec).  Torch dtypes are modelled as an
inductive type; numpy dtype strings (the array-protocol strings such as
`"<f4"` or `"|V1"` returned by `arr.dtype.str`) are modelled as Lean
strings.  Python exceptions become an `Err` inductive carried in `Except`.

External library behaviour consumed by the module (torch 2.0 / numpy on a
little-endian host) is embedded as explicit tables: `TorchDtype.npStr`
models `tensor.numpy()`'s resulting dtype string, `npStrToTorch` models
`torch.from_numpy`'s dtype mapping, and `torchGetattr` models
`getattr(torch, name)`.  A tensor carries a `numpyOk` flag modelling
whether the `tensor.numpy()` conversion capability succeeds for it (the
`try/except TypeError` in `from_tensor` is the only consumer).
-/

namespace Tensorizer

/-- The torch dtypes relevant to `_NumpyTensor`: every numpy-representable
dtype handled by the module plus the asymmetric and quantized families from
`_ASYMMETRIC_TYPES` and `_UNSUPPORTED_TYPES`. -/
inductive TorchDtype
  | float16 | float32 | float64 | bfloat16
  | complex32 | complex64 | complex128
  | int8 | int16 | int32 | int64 | uint8 | bool
  | quint8 | qint8 | qint32 | quint4x2 | quint2x4
deriving DecidableEq

/-- Model of `tensor.element_size()`, in bytes. -/
def TorchDtype.element_size : TorchDtype → Nat
  | .float16 => 2 | .float32 => 4 | .float64 => 8 | .bfloat16 => 2
  | .complex32 => 4 | .complex64 => 8 | .complex128 => 16
  | .int8 => 1 | .int16 => 2 | .int32 => 4 | .int64 => 8
  | .uint8 => 1 | .bool => 1
  | .quint8 => 1 | .qint8 => 1 | .qint32 => 4 | .quint4x2 => 1 | .quint2x4 => 1

/-- Model of `str(torch_dtype)`, e.g. `str(torch.float32) = "torch.float32"`. -/
def TorchDtype.pyStr : TorchDtype → String
  | .float16 => "torch.float16" | .float32 => "torch.float32"
  | .float64 => "torch.float64" | .bfloat16 => "torch.bfloat16"
  | .complex32 => "torch.complex32" | .complex64 => "torch.complex64"
  | .complex128 => "torch.complex128"
  | .int8 => "torch.int8" | .int16 => "torch.int16"
  | .int32 => "torch.int32" | .int64 => "torch.int64"
  | .uint8 => "torch.uint8" | .bool => "torch.bool"
  | .quint8 => "torch.quint8" | .qint8 => "torch.qint8"
  | .qint32 => "torch.qint32" | .quint4x2 => "torch.quint4x2"
  | .quint2x4 => "torch.quint2x4"

/-- Model of `tensor.numpy().dtype.str` on a little-endian host, for the torch dtypes
numpy can represent.  The quantized and asymmetric dtypes have no numpy
equivalent; they map to `""` and the value is never consulted for them
(`from_tensor` routes them to the opaque path first). -/
def TorchDtype.npStr : TorchDtype → String
  | .float16 => "<f2" | .float32 => "<f4" | .float64 => "<f8"
  | .complex64 => "<c8" | .complex128 => "<c16"
  | .int8 => "|i1" | .int16 => "<i2" | .int32 => "<i4" | .int64 => "<i8"
  | .uint8 => "|u1" | .bool => "|b1"
  | _ => ""

/-- The dtype mapping of `torch.from_numpy`: which torch dtype a numpy array
with the given array-protocol dtype string converts to, or `none` when
`torch.from_numpy` raises `TypeError` for that dtype (e.g. float128). -/
def npStrToTorch : String → Option TorchDtype
  | "<f2" => some .float16 | "<f4" => some .float32 | "<f8" => some .float64
  | "<c8" => some .complex64 | "<c16" => some .complex128
  | "|i1" => some .int8 | "<i2" => some .int16
  | "<i4" => some .int32 | "<i8" => some .int64
  | "|u1" => some .uint8 | "|b1" => some .bool
  | _ => none

/-- Model of `numpy.dtype(s).name` for the dtype strings appearing in this model
(used only in the `from_array` error message). -/
def npDtypeNameStr : String → String
  | "<f2" => "float16" | "<f4" => "float32" | "<f8" => "float64"
  | "<c8" => "complex64" | "<c16" => "complex128"
  | "|i1" => "int8" | "<i2" => "int16" | "<i4" => "int32" | "<i8" => "int64"
  | "|u1" => "uint8" | "|b1" => "bool"
  | "<f16" => "float128" | "<c32" => "complex256" | "<M8" => "datetime64"
  | s => s

/-- Python `s.startswith(p)`: the characters of `p` are a prefix of `s`. -/
def strStarts (s p : String) : Bool :=
  p.data.isPrefixOf s.data

/-- Python exceptions raised by the module (and the libraries it calls). -/
inductive Err
  | NotImplementedError (msg : String)
  | ValueError (msg : String)
  | TypeError (msg : String)
  | AttributeError (name : String)
  | RuntimeError (msg : String)
deriving DecidableEq

/-- The spec's `UnsupportedDtype` error kind. -/
def Err.isUnsupportedDtype : Err → Bool
  | .NotImplementedError _ => true
  | _ => false

/-- The spec's `MissingTypeTag` error kind: a name/tag was empty or absent. -/
def Err.isMissingTypeTag : Err → Bool
  | .ValueError m =>
      m = "Cannot decode an empty dtype." ||
      m = "Tried to decode a tensor stored as opaque data, but no torch dtype was specified"
  | _ => false

/-- The spec's `InvalidDtypeName` error kind: a malformed or non-dtype name. -/
def Err.isInvalidDtypeName : Err → Bool
  | .ValueError m => strStarts m "Invalid torch_dtype:"
  | _ => false

/-- The spec's `UnrepresentableWidth` error kind. -/
def Err.isUnrepresentableWidth : Err → Bool
  | .ValueError m => strStarts m "Cannot create a numpy array with opaque elements of size "
  | _ => false

/-- The spec's `UnrepresentableDtype` error kind. -/
def Err.isUnrepresentableDtype : Err → Bool
  | .TypeError m => strStarts m "Cannot serialize an array with dtype"
  | _ => false

/-- A value stored in the `torch_dtype` field of a `_NumpyTensor`.  The
NamedTuple annotates the field `Optional[str]`, but Python does not enforce
annotations, so the field can also end up holding a `torch.dtype` object. -/
inductive PyVal
  | str (s : String)
  | dtypeObj (d : TorchDtype)
deriving DecidableEq

/-- Python truthiness of the `torch_dtype` field: `None` and `""` are falsy,
a `torch.dtype` object is truthy. -/
def pyFalsy : Option PyVal → Bool
  | none => true
  | some (.str s) => s.isEmpty
  | some (.dtypeObj _) => false

/-- The `_INTERMEDIATE_MAPPING` dict: byte width to the plain integer stand-in. -/
def _INTERMEDIATE_MAPPING (size : Nat) : Option TorchDtype :=
  if size = 1 then some .int8
  else if size = 2 then some .int16
  else if size = 4 then some .int32
  else if size = 8 then some .int64
  else none

/-- The `_ASYMMETRIC_TYPES` set: torch types with no numpy equivalent. -/
def _ASYMMETRIC_TYPES : List TorchDtype :=
  [.bfloat16, .quint8, .qint8, .qint32, .quint4x2, .quint2x4, .complex32]

/-- The `_UNSUPPORTED_TYPES` set: quantized types needing auxiliary parameters. -/
def _UNSUPPORTED_TYPES : List TorchDtype :=
  [.quint8, .qint8, .qint32, .quint4x2, .quint2x4]

/-- The `_DECODE_MAPPING` dict: each asymmetric type keyed by its string name. -/
def _DECODE_MAPPING : List (String × TorchDtype) :=
  _ASYMMETRIC_TYPES.map (fun t => (TorchDtype.pyStr t, t))

/-- Python `s.replace(a, b)` for a single-character pattern. -/
def replaceChar (s : String) (a b : Char) : String :=
  String.mk (s.data.map (fun c => if c = a then b else c))

/-- The kind character of a numpy array-protocol dtype string: the first
character after an optional byte-order prefix from `<`, `>`, `=`, `|`. -/
def npKind (s : String) : Char :=
  match s.data with
  | [] => ' '
  | c :: rest =>
    if c = '<' ∨ c = '>' ∨ c = '=' ∨ c = '|' then
      match rest with
      | [] => ' '
      | k :: _ => k
    else c

/-- Model of the classmethod checking opacity of a dtype string:
`numpy.dtype(numpy_dtype).type == numpy.void`, i.e. the kind is `V`. -/
def isOpaqueStr (numpy_dtype : String) : Bool :=
  npKind numpy_dtype = 'V'

/-- Decimal digits read as a number. -/
def digitsToNat (l : List Char) : Nat :=
  l.foldl (fun n c => n * 10 + (c.toNat - 48)) 0

/-- The element byte width recorded in a numpy dtype string such as
`"<V2"` or `"<c16"`: the digits after the order and kind characters. -/
def npWidth (s : String) : Nat :=
  match s.data with
  | _ :: _ :: rest =>
    if rest ≠ [] ∧ rest.all Char.isDigit then digitsToNat rest else 0
  | _ => 0

/-- Membership test in `_ASYMMETRIC_TYPES`, as the classmethod does. -/
def _is_asymmetric (torch_dtype : TorchDtype) : Bool :=
  _ASYMMETRIC_TYPES.contains torch_dtype

/-- The stand-in dtype for `size`-byte elements, or `ValueError` when the
width has no plain-integer representative. -/
def _intermediate_type (size : Nat) : Except Err TorchDtype :=
  match _INTERMEDIATE_MAPPING size with
  | some d => .ok d
  | none =>
      .error (.ValueError
        ("Cannot create a numpy array with opaque elements of size "
          ++ toString size ++ " bytes"))

/-- Decoder dtype computation: swap the void marker back to the integer
marker so numpy honours the byte order. -/
def _decoder_dtype (numpy_dtype : String) : String :=
  if isOpaqueStr numpy_dtype then replaceChar numpy_dtype 'V' 'i'
  else numpy_dtype

/-- A host torch tensor: its dtype, shape, flat byte buffer, and whether the
`tensor.numpy()` conversion capability succeeds on it (`numpyOk`). -/
structure Tensor where
  dtype : TorchDtype
  shape : List Nat
  bytes : List Nat
  numpyOk : Bool
deriving DecidableEq

/-- A numpy ndarray: its array-protocol dtype string, shape and bytes. -/
structure NDArray where
  dtypeStr : String
  shape : List Nat
  bytes : List Nat
deriving DecidableEq

/-- The `_NumpyTensor` NamedTuple. -/
structure NumpyTensor where
  data : NDArray
  numpy_dtype : String
  torch_dtype : Option PyVal
deriving DecidableEq

/-- The `is_opaque` property of `_NumpyTensor`:
`self._is_opaque(self.numpy_dtype)`. -/
def NumpyTensor.isOpaqueTag (nt : NumpyTensor) : Bool :=
  isOpaqueStr nt.numpy_dtype

/-- Model of `torch.from_numpy`: a zero-copy tensor over the array's buffer with
the torch dtype matching the array's dtype, or `TypeError` when torch has no
mapping for that numpy dtype.  The result is numpy-backed, so converting it
back to numpy succeeds. -/
def torch_from_numpy (a : NDArray) : Except Err Tensor :=
  match npStrToTorch a.dtypeStr with
  | some d => .ok { dtype := d, shape := a.shape, bytes := a.bytes, numpyOk := true }
  | none => .error (.TypeError ("can't convert np.ndarray of type " ++ a.dtypeStr))

/-- Model of `tensor.numpy()`: succeeds when the conversion capability holds for this
tensor, yielding a zero-copy array with the corresponding numpy dtype. -/
def Tensor.numpy (t : Tensor) : Except Err NDArray :=
  if t.numpyOk then
    .ok { dtypeStr := TorchDtype.npStr t.dtype, shape := t.shape, bytes := t.bytes }
  else
    .error (.TypeError ("can't convert tensor of type " ++ TorchDtype.pyStr t.dtype))

/-- Model of `tensor.view(dtype)`: reinterpret the same bytes under another dtype.
With equal element sizes the shape is unchanged; with differing sizes torch
rescales the last dimension when the byte counts line up and raises
`RuntimeError` otherwise.  Viewing as a plain dtype restores the numpy
conversion capability. -/
def Tensor.viewDtype (t : Tensor) (d : TorchDtype) : Except Err Tensor :=
  let o := TorchDtype.element_size t.dtype
  let n := TorchDtype.element_size d
  if n = o then
    .ok { dtype := d, shape := t.shape, bytes := t.bytes, numpyOk := true }
  else
    match t.shape.reverse with
    | [] => .error (.RuntimeError "self.dim() cannot be 0 to view as a different dtype")
    | last :: restRev =>
      if (last * o) % n = 0 then
        .ok { dtype := d, shape := (last * o / n :: restRev).reverse,
              bytes := t.bytes, numpyOk := true }
      else
        .error (.RuntimeError "view size is not compatible with input size and dtype")

/-- Result kinds of `getattr` on the torch namespace, restricted to its dtype
attributes (with the usual aliases) and a few representative non-dtype
attributes.  `none` models an `AttributeError`. -/
inductive TorchAttr
  | dtype (d : TorchDtype)
  | nonDtype
deriving DecidableEq

/-- The attribute table of the `torch` module used by `getattr`. -/
def torchGetattr : String → Option TorchAttr
  | "float16" => some (.dtype .float16) | "float32" => some (.dtype .float32)
  | "float64" => some (.dtype .float64) | "bfloat16" => some (.dtype .bfloat16)
  | "complex32" => some (.dtype .complex32) | "complex64" => some (.dtype .complex64)
  | "complex128" => some (.dtype .complex128)
  | "int8" => some (.dtype .int8) | "int16" => some (.dtype .int16)
  | "int32" => some (.dtype .int32) | "int64" => some (.dtype .int64)
  | "uint8" => some (.dtype .uint8) | "bool" => some (.dtype .bool)
  | "quint8" => some (.dtype .quint8) | "qint8" => some (.dtype .qint8)
  | "qint32" => some (.dtype .qint32) | "quint4x2" => some (.dtype .quint4x2)
  | "quint2x4" => some (.dtype .quint2x4)
  | "half" => some (.dtype .float16) | "float" => some (.dtype .float32)
  | "double" => some (.dtype .float64) | "short" => some (.dtype .int16)
  | "int" => some (.dtype .int32) | "long" => some (.dtype .int64)
  | "chalf" => some (.dtype .complex32) | "cfloat" => some (.dtype .complex64)
  | "cdouble" => some (.dtype .complex128)
  | "tensor" => some .nonDtype | "Tensor" => some .nonDtype
  | "nn" => some .nonDtype | "zeros" => some .nonDtype
  | _ => none

/-- Python `s.split(".", 1)` helper: the part before the first dot and,
when a dot exists, the remainder after it. -/
def splitDot1Aux (acc : List Char) : List Char → Option (List Char × List Char)
  | [] => none
  | c :: rest => if c = '.' then some (acc, rest) else splitDot1Aux (acc ++ [c]) rest

/-- Python `s.split(".", 1)` as a pair: `(head, some tail)` when a dot is
present, `(s, none)` otherwise. -/
def splitDot1 (s : String) : String × Option String :=
  match splitDot1Aux [] s.data with
  | none => (s, none)
  | some (a, b) => (String.mk a, some (String.mk b))

/-- The `torch_dtype` field parser: table lookup fast path for the
asymmetric types, then the `getattr` route with its empty-name, non-string,
malformed-name and non-dtype checks.  A name absent from the torch namespace
makes `getattr` raise `AttributeError` (the code's `dtype is None` guard is
never reached for it). -/
def _decode_torch_dtype (torch_dtype : Option PyVal) : Except Err TorchDtype :=
  match (match torch_dtype with
         | some (.str s) => _DECODE_MAPPING.lookup s
         | _ => none) with
  | some d => .ok d
  | none =>
    if pyFalsy torch_dtype then
      .error (.ValueError "Cannot decode an empty dtype.")
    else
      match torch_dtype with
      | some (.str s) =>
        let parts := splitDot1 s
        match parts.2 with
        | none => .error (.ValueError ("Invalid torch_dtype: " ++ s))
        | some ident =>
          if parts.1 ≠ "torch" then
            .error (.ValueError ("Invalid torch_dtype: " ++ s))
          else
            match torchGetattr ident with
            | none => .error (.AttributeError ident)
            | some (.dtype d) => .ok d
            | some .nonDtype => .error (.ValueError ("Invalid torch_dtype: " ++ s))
      | _ => .error (.TypeError "torch_dtype must be a string.")

/-- Encoding of a torch tensor: reject unsupported dtypes, record the torch
dtype string, take the numpy view when the dtype is not asymmetric and the
conversion succeeds, otherwise fall through to the opaque path (stand-in
integer view, `i` marker replaced with `V`). -/
def from_tensor (t : Tensor) : Except Err NumpyTensor :=
  if _UNSUPPORTED_TYPES.contains t.dtype then
    .error (.NotImplementedError
      ("Serialization for " ++ TorchDtype.pyStr t.dtype ++ " is not implemented."))
  else
    let torch_dtype := TorchDtype.pyStr t.dtype
    let symmetric : Option NDArray :=
      if _is_asymmetric t.dtype then none
      else
        match Tensor.numpy t with
        | .ok arr => some arr
        | .error _ => none
    match symmetric with
    | some arr =>
      .ok { data := arr, numpy_dtype := arr.dtypeStr,
            torch_dtype := some (.str torch_dtype) }
    | none =>
      match _intermediate_type (TorchDtype.element_size t.dtype) with
      | .error e => .error e
      | .ok it =>
        match (Tensor.viewDtype t it).bind Tensor.numpy with
        | .error e => .error e
        | .ok arr =>
          .ok { data := arr, numpy_dtype := replaceChar arr.dtypeStr 'i' 'V',
                torch_dtype := some (.str torch_dtype) }

/-- Encoding of a plain numpy array: probe `torch.from_numpy` on a zero-size array
of the same dtype; on failure re-raise as a `TypeError` naming the dtype; on
success store the array as-is.  The `torch_dtype` field receives the
`torch.dtype` object produced by the probe. -/
def from_array (arr : NDArray) : Except Err NumpyTensor :=
  match npStrToTorch arr.dtypeStr with
  | none =>
    .error (.TypeError
      ("Cannot serialize an array with dtype " ++ npDtypeNameStr arr.dtypeStr
        ++ " as a _NumpyTensor."))
  | some d =>
    .ok { data := arr, numpy_dtype := arr.dtypeStr,
          torch_dtype := some (.dtypeObj d) }

/-- Decoding back to a torch tensor: non-opaque data is wrapped directly; opaque
data requires a truthy `torch_dtype`, is wrapped as the stand-in integer
tensor and viewed as the decoded torch dtype. -/
def NumpyTensor.to_tensor (nt : NumpyTensor) : Except Err Tensor :=
  if NumpyTensor.isOpaqueTag nt = false then
    torch_from_numpy nt.data
  else if pyFalsy nt.torch_dtype then
    .error (.ValueError
      "Tried to decode a tensor stored as opaque data, but no torch dtype was specified")
  else
    match torch_from_numpy nt.data with
    | .error e => .error e
    | .ok tensor_view =>
      match _decode_torch_dtype nt.torch_dtype with
      | .error e => .error e
      | .ok d => Tensor.viewDtype tensor_view d

/-- Decoding from a raw buffer: construct the numpy view over an external
buffer using the decoder dtype, keeping the encoded tags. -/
def from_buffer (numpy_dtype : String) (torch_dtype : Option PyVal)
    (shape_list : List Nat) (buffer : List Nat) (offset : Nat) : NumpyTensor :=
  { data := { dtypeStr := _decoder_dtype numpy_dtype, shape := shape_list,
              bytes := buffer.drop offset },
    numpy_dtype := numpy_dtype, torch_dtype := torch_dtype }


/-! Helper lemmas and claim theorems follow. -/

/-- A string prefixed by another, shifted across an append. -/
theorem strStarts_append (p t : String) : strStarts (p ++ t) p = true := by
  simp [strStarts, String.data_append, List.isPrefixOf_iff_prefix]

/-- Claim C3: for every tensor whose dtype is in the unsupported set (the
quantized types requiring auxiliary parameters), `from_tensor` fails with
the `UnsupportedDtype` error (`NotImplementedError`) before attempting any
encoding, and no `_NumpyTensor` is returned. -/
theorem C3_unsupported_rejection (t : Tensor)
    (h : _UNSUPPORTED_TYPES.contains t.dtype = true) :
    from_tensor t =
      .error (.NotImplementedError
        ("Serialization for " ++ TorchDtype.pyStr t.dtype ++ " is not implemented.")) ∧
    (∀ nt : NumpyTensor, from_tensor t ≠ .ok nt) := by
  have h1 : from_tensor t =
      .error (.NotImplementedError
        ("Serialization for " ++ TorchDtype.pyStr t.dtype ++ " is not implemented.")) := by
    unfold from_tensor
    rw [h]
    rfl
  refine ⟨h1, ?_⟩
  intro nt hnt
  rw [h1] at hnt
  exact Except.noConfusion hnt

/-- Claim C3, witness: a quint8 tensor is rejected. -/
theorem C3_unsupported_rejection_witness :
    from_tensor ⟨.quint8, [1], [0], true⟩ =
      .error (.NotImplementedError "Serialization for torch.quint8 is not implemented.") :=
  (C3_unsupported_rejection ⟨.quint8, [1], [0], true⟩ (by decide)).1

/-- Claim C4: opaque encoding of any element byte width outside {1, 2, 4, 8}
fails deterministically with the `UnrepresentableWidth` error, because
`_INTERMEDIATE_MAPPING` has no same-width plain-integer stand-in. -/
theorem C4_width_rejection (n : Nat) (h : n ∉ ([1, 2, 4, 8] : List Nat)) :
    _intermediate_type n =
      .error (.ValueError
        ("Cannot create a numpy array with opaque elements of size "
          ++ toString n ++ " bytes")) ∧
    (∀ e : Err, _intermediate_type n = .error e → Err.isUnrepresentableWidth e = true) := by
  simp only [List.mem_cons, List.not_mem_nil, or_false, not_or] at h
  obtain ⟨h1, h2, h3, h4⟩ := h
  have hm : _INTERMEDIATE_MAPPING n = none := by
    simp [_INTERMEDIATE_MAPPING, h1, h2, h3, h4]
  have hmain : _intermediate_type n =
      .error (.ValueError
        ("Cannot create a numpy array with opaque elements of size "
          ++ toString n ++ " bytes")) := by
    unfold _intermediate_type
    rw [hm]
  refine ⟨hmain, ?_⟩
  intro e he
  rw [hmain] at he
  injection he with he
  subst he
  simp only [Err.isUnrepresentableWidth]
  rw [String.append_assoc]
  exact strStarts_append _ _

/-- Claim C4, witness: widths 3 and 16 both fail. -/
theorem C4_width_rejection_witness :
    _intermediate_type 3 =
      .error (.ValueError "Cannot create a numpy array with opaque elements of size 3 bytes") ∧
    _intermediate_type 16 =
      .error (.ValueError "Cannot create a numpy array with opaque elements of size 16 bytes") :=
  ⟨(C4_width_rejection 3 (by decide)).1, (C4_width_rejection 16 (by decide)).1⟩


/-- Claim C2 (code evaluated at the claim's inputs): the dtype-name resolver
returns int8 for "torch.int8", fails with the `MissingTypeTag` error for ""
and with the `InvalidDtypeName` error for "bogus"; but for
"torch.not_a_dtype" (identifier absent from the torch namespace) `getattr`
raises an uncaught `AttributeError`, which is not the `InvalidDtypeName`
`ValueError` promised by the function's own docstring. -/
theorem C2_name_resolution_behaviour :
    _decode_torch_dtype (some (.str "torch.int8")) = .ok .int8 ∧
    _decode_torch_dtype (some (.str "")) =
      .error (.ValueError "Cannot decode an empty dtype.") ∧
    Err.isMissingTypeTag (.ValueError "Cannot decode an empty dtype.") = true ∧
    _decode_torch_dtype (some (.str "bogus")) =
      .error (.ValueError "Invalid torch_dtype: bogus") ∧
    Err.isInvalidDtypeName (.ValueError "Invalid torch_dtype: bogus") = true ∧
    _decode_torch_dtype (some (.str "torch.not_a_dtype")) =
      .error (.AttributeError "not_a_dtype") ∧
    Err.isInvalidDtypeName (.AttributeError "not_a_dtype") = false ∧
    Err.isMissingTypeTag (.AttributeError "not_a_dtype") = false := by
  refine ⟨rfl, rfl, by decide, rfl, by decide, rfl, by decide, by decide⟩

/-- Claim C6: `_decoder_dtype` leaves every non-opaque dtype string
unchanged; on opaque strings it substitutes the void marker with the integer
marker (`replaceChar _ 'V' 'i'`), and this is the exact inverse of the
encoder's step-5 substitution: applied to the opaque string produced from
any of the four stand-in integer dtype strings it returns that integer
dtype string, width and endianness marker intact. -/
theorem C6_decoder_dtype :
    (∀ s : String, isOpaqueStr s = false → _decoder_dtype s = s) ∧
    (∀ s : String, isOpaqueStr s = true → _decoder_dtype s = replaceChar s 'V' 'i') ∧
    (∀ k : TorchDtype, k ∈ [TorchDtype.int8, .int16, .int32, .int64] →
      _decoder_dtype (replaceChar (TorchDtype.npStr k) 'i' 'V') = TorchDtype.npStr k) := by
  refine ⟨?_, ?_, ?_⟩
  · intro s h
    simp [_decoder_dtype, h]
  · intro s h
    simp [_decoder_dtype, h]
  · intro k hk
    simp only [List.mem_cons, List.not_mem_nil, or_false] at hk
    rcases hk with rfl | rfl | rfl | rfl <;> rfl

/-- Claim C6, witness: a non-opaque string passes through unchanged and the
opaque counterpart of the int16 string decodes back to it. -/
theorem C6_decoder_dtype_witness :
    _decoder_dtype "<f4" = "<f4" ∧ _decoder_dtype "<V2" = "<i2" :=
  ⟨C6_decoder_dtype.1 "<f4" (by decide),
   C6_decoder_dtype.2.2 .int16 (by simp)⟩

/-- Claim C7 (code evaluated at the claim's inputs): when the array's dtype
has a torch counterpart, `from_array` returns the array itself with
`numpy_dtype` equal to the array's own dtype string — but the `torch_dtype`
field receives the resolved `torch.dtype` object, never a string naming it,
contradicting the field's `Optional[str]` annotation; when no counterpart
exists the call fails with the `UnrepresentableDtype` error naming the
array's dtype. -/
theorem C7_from_array_behaviour :
    (∀ (arr : NDArray) (nt : NumpyTensor), from_array arr = .ok nt →
      nt.data = arr ∧ nt.numpy_dtype = arr.dtypeStr ∧
      (∃ d : TorchDtype, nt.torch_dtype = some (.dtypeObj d)) ∧
      (∀ str : String, nt.torch_dtype ≠ some (.str str))) ∧
    (∀ arr : NDArray, arr.dtypeStr = "<f16" →
      from_array arr =
        .error (.TypeError
          "Cannot serialize an array with dtype float128 as a _NumpyTensor.") ∧
      Err.isUnrepresentableDtype
        (.TypeError "Cannot serialize an array with dtype float128 as a _NumpyTensor.")
        = true) := by
  constructor
  · intro arr nt h
    unfold from_array at h
    cases hm : npStrToTorch arr.dtypeStr with
    | none =>
      rw [hm] at h
      exact Except.noConfusion h
    | some d =>
      rw [hm] at h
      injection h with h
      subst h
      exact ⟨rfl, rfl, ⟨d, rfl⟩, fun str hs => by injection hs with hs; exact PyVal.noConfusion hs⟩
  · intro arr h
    constructor
    · unfold from_array
      rw [h]
      rfl
    · decide

/-- Claim C7, witness: a three-element float32 array keeps its data and
dtype string but gets the dtype object tag, and a float128 array is
rejected with the message naming float128. -/
theorem C7_from_array_behaviour_witness :
    (NumpyTensor.mk ⟨"<f4", [3], [0, 0, 0, 0, 0, 0, 0, 0, 0, 0, 0, 0]⟩ "<f4"
        (some (.dtypeObj .float32))).data = ⟨"<f4", [3], [0, 0, 0, 0, 0, 0, 0, 0, 0, 0, 0, 0]⟩ ∧
    (∀ str : String,
      (NumpyTensor.mk ⟨"<f4", [3], [0, 0, 0, 0, 0, 0, 0, 0, 0, 0, 0, 0]⟩ "<f4"
        (some (.dtypeObj .float32))).torch_dtype ≠ some (.str str)) ∧
    from_array ⟨"<f16", [1], List.replicate 16 0⟩ =
      .error (.TypeError
        "Cannot serialize an array with dtype float128 as a _NumpyTensor.") := by
  have h1 := C7_from_array_behaviour.1
    ⟨"<f4", [3], [0, 0, 0, 0, 0, 0, 0, 0, 0, 0, 0, 0]⟩
    (NumpyTensor.mk ⟨"<f4", [3], [0, 0, 0, 0, 0, 0, 0, 0, 0, 0, 0, 0]⟩ "<f4"
      (some (.dtypeObj .float32))) rfl
  have h2 := C7_from_array_behaviour.2 ⟨"<f16", [1], List.replicate 16 0⟩ rfl
  exact ⟨h1.1, h1.2.2.2, h2.1⟩


/-- Claim C1: for every tensor of a supported dtype (any numpy-representable
dtype, and the asymmetric-but-supported bfloat16 and complex32), provided
the numpy conversion capability behaves as documented for the
numpy-representable dtypes, `from_tensor` followed by `to_tensor` yields a
tensor with dtype, shape and bytes identical to the original. -/
theorem C1_round_trip (t : Tensor)
    (hs : _UNSUPPORTED_TYPES.contains t.dtype = false)
    (hcap : _is_asymmetric t.dtype = false → t.numpyOk = true) :
    ∃ (nt : NumpyTensor) (t2 : Tensor),
      from_tensor t = .ok nt ∧ NumpyTensor.to_tensor nt = .ok t2 ∧
      t2.dtype = t.dtype ∧ t2.shape = t.shape ∧ t2.bytes = t.bytes := by
  obtain ⟨d, sh, b, ok⟩ := t
  cases d <;> dsimp only at hs hcap ⊢ <;>
    first
      | exact absurd hs (by decide)
      | (have hok := hcap (by decide); subst hok; exact ⟨_, _, rfl, rfl, rfl, rfl, rfl⟩)
      | (cases ok <;> exact ⟨_, _, rfl, rfl, rfl, rfl, rfl⟩)

/-- Claim C1, witness: a bfloat16 tensor of shape [2] round-trips. -/
theorem C1_round_trip_witness :
    ∃ (nt : NumpyTensor) (t2 : Tensor),
      from_tensor ⟨.bfloat16, [2], [1, 2, 3, 4], true⟩ = .ok nt ∧
      NumpyTensor.to_tensor nt = .ok t2 ∧
      t2.dtype = (Tensor.mk .bfloat16 [2] [1, 2, 3, 4] true).dtype ∧
      t2.shape = (Tensor.mk .bfloat16 [2] [1, 2, 3, 4] true).shape ∧
      t2.bytes = (Tensor.mk .bfloat16 [2] [1, 2, 3, 4] true).bytes :=
  C1_round_trip ⟨.bfloat16, [2], [1, 2, 3, 4], true⟩ (by decide) (by decide)


/-- Claim C5: for every `_NumpyTensor` produced by `from_tensor`, the
`numpy_dtype` tag is classified opaque exactly when the encoding took the
opaque path (asymmetric dtype, or numpy conversion capability failure);
dtype strings of numpy-representable types coming from the direct path are
never classified opaque. -/
theorem C5_opacity_consistency (t : Tensor) (nt : NumpyTensor)
    (h : from_tensor t = .ok nt) :
    (NumpyTensor.isOpaqueTag nt = true ↔
      (_is_asymmetric t.dtype = true ∨ t.numpyOk = false)) := by
  obtain ⟨d, sh, b, ok⟩ := t
  cases d <;> cases ok <;> dsimp only at h ⊢ <;>
    first
      | exact Except.noConfusion h
      | (have e := Except.ok.inj h; subst e;
         dsimp only [NumpyTensor.isOpaqueTag]; decide)

/-- Claim C5, witness: a float32 tensor with a working numpy conversion
encodes to a non-opaque tag, matching the path condition. -/
theorem C5_opacity_consistency_witness :
    (NumpyTensor.isOpaqueTag ⟨⟨"<f4", [1], [0, 0, 0, 0]⟩, "<f4",
        some (.str "torch.float32")⟩ = true ↔
      (_is_asymmetric (Tensor.mk .float32 [1] [0, 0, 0, 0] true).dtype = true ∨
        (Tensor.mk .float32 [1] [0, 0, 0, 0] true).numpyOk = false)) :=
  C5_opacity_consistency ⟨.float32, [1], [0, 0, 0, 0], true⟩
    ⟨⟨"<f4", [1], [0, 0, 0, 0]⟩, "<f4", some (.str "torch.float32")⟩ rfl

/-- Claim C8: every opaque `_NumpyTensor` produced by `from_tensor` carries
a present `torch_dtype` string that resolves back to the tensor's dtype,
whose element byte width equals the width recorded in the opaque
`numpy_dtype` tag; and decoding any opaque `_NumpyTensor` whose
`torch_dtype` is absent fails with the `MissingTypeTag` error. -/
theorem C8_joint_consistency :
    (∀ (t : Tensor) (nt : NumpyTensor), from_tensor t = .ok nt →
      NumpyTensor.isOpaqueTag nt = true →
      nt.torch_dtype = some (.str (TorchDtype.pyStr t.dtype)) ∧
      _decode_torch_dtype nt.torch_dtype = .ok t.dtype ∧
      TorchDtype.element_size t.dtype = npWidth nt.numpy_dtype) ∧
    (∀ nt : NumpyTensor, NumpyTensor.isOpaqueTag nt = true → nt.torch_dtype = none →
      NumpyTensor.to_tensor nt =
        .error (.ValueError
          "Tried to decode a tensor stored as opaque data, but no torch dtype was specified") ∧
      Err.isMissingTypeTag
        (.ValueError
          "Tried to decode a tensor stored as opaque data, but no torch dtype was specified")
        = true) := by
  constructor
  · intro t nt h hop
    obtain ⟨d, sh, b, ok⟩ := t
    cases d <;> cases ok <;> dsimp only at h hop ⊢ <;>
      first
        | exact Except.noConfusion h
        | (have e := Except.ok.inj h; subst e;
           dsimp only [NumpyTensor.isOpaqueTag] at hop; exact absurd hop (by decide))
        | (have e := Except.ok.inj h; subst e; exact ⟨rfl, rfl, rfl⟩)
  · intro nt hop habs
    obtain ⟨data, ndt, td⟩ := nt
    dsimp only at habs
    subst habs
    dsimp only [NumpyTensor.isOpaqueTag] at hop
    refine ⟨?_, by decide⟩
    simp [NumpyTensor.to_tensor, NumpyTensor.isOpaqueTag, hop, pyFalsy]

/-- Claim C8, witness: the opaque encoding of a bfloat16 tensor carries the
tag "torch.bfloat16" resolving to a width-2 dtype matching "<V2", and an
opaque record with no tag fails to decode. -/
theorem C8_joint_consistency_witness :
    ((NumpyTensor.mk ⟨"<i2", [2], [1, 2, 3, 4]⟩ "<V2"
        (some (.str "torch.bfloat16"))).torch_dtype =
      some (.str (TorchDtype.pyStr (Tensor.mk .bfloat16 [2] [1, 2, 3, 4] true).dtype)) ∧
      _decode_torch_dtype (NumpyTensor.mk ⟨"<i2", [2], [1, 2, 3, 4]⟩ "<V2"
        (some (.str "torch.bfloat16"))).torch_dtype =
        .ok (Tensor.mk .bfloat16 [2] [1, 2, 3, 4] true).dtype ∧
      TorchDtype.element_size (Tensor.mk .bfloat16 [2] [1, 2, 3, 4] true).dtype =
        npWidth (NumpyTensor.mk ⟨"<i2", [2], [1, 2, 3, 4]⟩ "<V2"
          (some (.str "torch.bfloat16"))).numpy_dtype) ∧
    (NumpyTensor.to_tensor ⟨⟨"<i2", [1], [7, 7]⟩, "<V2", none⟩ =
      .error (.ValueError
        "Tried to decode a tensor stored as opaque data, but no torch dtype was specified")) :=
  ⟨C8_joint_consistency.1 ⟨.bfloat16, [2], [1, 2, 3, 4], true⟩
      ⟨⟨"<i2", [2], [1, 2, 3, 4]⟩, "<V2", some (.str "torch.bfloat16")⟩ rfl rfl,
   (C8_joint_consistency.2 ⟨⟨"<i2", [1], [7, 7]⟩, "<V2", none⟩ rfl rfl).1⟩


/-- Claim C9, counterexample: complex128 is not in the asymmetric set, so a
complex128 tensor whose numpy conversion capability fails reaches the
fall-through, but the opaque path itself rejects its 16-byte width — the
encoder fails with the `UnrepresentableWidth` error and produces no opaque
`_NumpyTensor`, contradicting the unconditional "producing an opaque
TaggedArray". -/
theorem C9_fallthrough_counterexample :
    _is_asymmetric TorchDtype.complex128 = false ∧
    _UNSUPPORTED_TYPES.contains TorchDtype.complex128 = false ∧
    (Tensor.mk .complex128 [1] (List.replicate 16 0) false).numpyOk = false ∧
    from_tensor ⟨.complex128, [1], List.replicate 16 0, false⟩ =
      .error (.ValueError
        "Cannot create a numpy array with opaque elements of size 16 bytes") :=
  ⟨by decide, by decide, rfl, rfl⟩

/-- Claim C9, amended: when a tensor's dtype is not in the hardcoded
asymmetric set but the numpy conversion capability fails, `from_tensor`
falls through to the opaque-encoding path instead of propagating the
conversion failure: it produces an opaque `_NumpyTensor` whenever the
element width is in {1, 2, 4, 8}, and otherwise fails with the
`UnrepresentableWidth` error of the opaque path. -/
theorem C9_fallthrough_amended (t : Tensor)
    (ha : _is_asymmetric t.dtype = false)
    (hcapfail : t.numpyOk = false)
    (hs : _UNSUPPORTED_TYPES.contains t.dtype = false) :
    (TorchDtype.element_size t.dtype ∈ ([1, 2, 4, 8] : List Nat) →
      ∃ nt : NumpyTensor, from_tensor t = .ok nt ∧ NumpyTensor.isOpaqueTag nt = true) ∧
    (TorchDtype.element_size t.dtype ∉ ([1, 2, 4, 8] : List Nat) →
      ∃ e : Err, from_tensor t = .error e ∧ Err.isUnrepresentableWidth e = true) := by
  obtain ⟨d, sh, b, ok⟩ := t
  dsimp only at ha hcapfail hs ⊢
  subst hcapfail
  cases d <;>
    first
      | exact absurd ha (by decide)
      | exact absurd hs (by decide)
      | exact ⟨fun _ => ⟨_, rfl, rfl⟩, fun hw => absurd (by decide) hw⟩
      | exact ⟨fun hw => absurd hw (by decide),
          fun _ =>
            ⟨.ValueError ("Cannot create a numpy array with opaque elements of size "
               ++ toString (16 : Nat) ++ " bytes"),
             by rfl, by decide⟩⟩

/-- Claim C9, witness: a float32 tensor with a failing numpy conversion is
nevertheless encoded, as opaque data. -/
theorem C9_fallthrough_amended_witness :
    (TorchDtype.element_size (Tensor.mk .float32 [1] [0, 0, 0, 0] false).dtype ∈
        ([1, 2, 4, 8] : List Nat) →
      ∃ nt : NumpyTensor,
        from_tensor ⟨.float32, [1], [0, 0, 0, 0], false⟩ = .ok nt ∧
        NumpyTensor.isOpaqueTag nt = true) ∧
    (TorchDtype.element_size (Tensor.mk .float32 [1] [0, 0, 0, 0] false).dtype ∉
        ([1, 2, 4, 8] : List Nat) →
      ∃ e : Err,
        from_tensor ⟨.float32, [1], [0, 0, 0, 0], false⟩ = .error e ∧
        Err.isUnrepresentableWidth e = true) :=
  C9_fallthrough_amended ⟨.float32, [1], [0, 0, 0, 0], false⟩ (by decide) rfl (by decide)

/-- Claim C10: decoding a non-opaque `_NumpyTensor` wraps the `data` field
directly, never consulting `torch_dtype`: records differing only in that
field decode identically, and the non-opaque path can only raise the numpy
conversion `TypeError`, never the `MissingTypeTag` or `InvalidDtypeName`
errors. -/
theorem C10_nonopaque_ignores_tag (nt : NumpyTensor)
    (h : NumpyTensor.isOpaqueTag nt = false) :
    NumpyTensor.to_tensor nt = torch_from_numpy nt.data ∧
    (∀ nt2 : NumpyTensor, nt2.data = nt.data → nt2.numpy_dtype = nt.numpy_dtype →
      NumpyTensor.to_tensor nt2 = NumpyTensor.to_tensor nt) ∧
    (∀ e : Err, NumpyTensor.to_tensor nt = .error e →
      Err.isMissingTypeTag e = false ∧ Err.isInvalidDtypeName e = false) := by
  have hmain : NumpyTensor.to_tensor nt = torch_from_numpy nt.data := by
    simp [NumpyTensor.to_tensor, h]
  refine ⟨hmain, ?_, ?_⟩
  · intro nt2 hd hn
    have h2 : NumpyTensor.isOpaqueTag nt2 = false := by
      show isOpaqueStr nt2.numpy_dtype = false
      rw [hn]
      exact h
    have hm2 : NumpyTensor.to_tensor nt2 = torch_from_numpy nt2.data := by
      simp [NumpyTensor.to_tensor, h2]
    rw [hm2, hmain, hd]
  · intro e he
    rw [hmain] at he
    unfold torch_from_numpy at he
    cases hx : npStrToTorch nt.data.dtypeStr with
    | some d =>
      rw [hx] at he
      exact Except.noConfusion he
    | none =>
      rw [hx] at he
      injection he with he
      subst he
      exact ⟨rfl, rfl⟩

/-- Claim C10, witness: two non-opaque records over the same float32 array,
one untagged and one with a malformed tag, decode to the same tensor, and
the result is not an error. -/
theorem C10_nonopaque_ignores_tag_witness :
    NumpyTensor.to_tensor ⟨⟨"<f4", [1], [0, 0, 0, 0]⟩, "<f4", none⟩ =
      torch_from_numpy (NDArray.mk "<f4" [1] [0, 0, 0, 0]) ∧
    NumpyTensor.to_tensor ⟨⟨"<f4", [1], [0, 0, 0, 0]⟩, "<f4", some (.str "garbage")⟩ =
      NumpyTensor.to_tensor ⟨⟨"<f4", [1], [0, 0, 0, 0]⟩, "<f4", none⟩ :=
  ⟨(C10_nonopaque_ignores_tag ⟨⟨"<f4", [1], [0, 0, 0, 0]⟩, "<f4", none⟩ rfl).1,
   (C10_nonopaque_ignores_tag ⟨⟨"<f4", [1], [0, 0, 0, 0]⟩, "<f4", none⟩ rfl).2.1
     ⟨⟨"<f4", [1], [0, 0, 0, 0]⟩, "<f4", some (.str "garbage")⟩ rfl rfl⟩

end Tensorizer
